import Mathlib

/-!
Shallow embedding of the LLMSimulator analytic cost-model core.

Python floats are modelled as rationals (ℚ); time values that may be
`float("inf")` are modelled as `WithTop ℚ` with `⊤` standing for `+infinity`.
Python ints are modelled as ℤ.  Python dicts of features are modelled as
association lists `List (String × ℚ)`.
-/

namespace LLMSim

/-- Python `int(q)` on a rational: truncation toward zero. -/
def pyInt (q : ℚ) : ℤ := if 0 ≤ q then ⌊q⌋ else ⌈q⌉

/-- Division of a possibly-infinite time by a (positive) rational:
`inf / d = inf`, mirroring IEEE semantics used by the Python code. -/
def divTop (x : WithTop ℚ) (d : ℚ) : WithTop ℚ := x.map (· / d)

/-- `src/core/data/specs.py` `HardwareSpec`. -/
structure HardwareSpec where
  name : String
  peak_tflops : ℚ
  memory_bandwidth_gbps : ℚ
  hbm_gb : ℚ
  interconnect_gbps : ℚ
  max_concurrency : ℤ := 1
  overlap_efficiency : ℚ := 1

/-- `HardwareSpec.compute_throughput_tflops`: `max(self.peak_tflops, 0.0)`. -/
def HardwareSpec.compute_throughput_tflops (hw : HardwareSpec) : ℚ :=
  max hw.peak_tflops 0

/-- `HardwareSpec.memory_bandwidth_bytes`: `max(self.memory_bandwidth_gbps, 0.0) * 1e9`. -/
def HardwareSpec.memory_bandwidth_bytes (hw : HardwareSpec) : ℚ :=
  max hw.memory_bandwidth_gbps 0 * 10 ^ 9

/-- `HardwareSpec.interconnect_bandwidth_bytes`: `max(self.interconnect_gbps, 0.0) * 1e9`. -/
def HardwareSpec.interconnect_bandwidth_bytes (hw : HardwareSpec) : ℚ :=
  max hw.interconnect_gbps 0 * 10 ^ 9

/-- `HardwareSpec.effective_overlap`: `max(self.overlap_efficiency, 1e-3)`. -/
def HardwareSpec.effective_overlap (hw : HardwareSpec) : ℚ :=
  max hw.overlap_efficiency (1 / 1000)

/-- `src/core/ops/metrics.py` `matmul_flops`: `float(2*m*n*k)`. -/
def matmul_flops (m n k : ℤ) : ℚ := ((2 * m * n * k : ℤ) : ℚ)

/-- `metrics.py` `tensor_elements`: product of `max(int(dim), 0)` over the shape,
starting from 1 and multiplying left to right. -/
def tensor_elements (shape : List ℤ) : ℤ :=
  shape.foldl (fun total dim => total * max dim 0) 1

/-- `metrics.py` `tensor_bytes`: `tensor_elements(shape) * dtype_bits / 8.0`. -/
def tensor_bytes (shape : List ℤ) (dtype_bits : ℤ := 16) : ℚ :=
  (tensor_elements shape : ℚ) * (dtype_bits : ℚ) / 8

/-- `metrics.py` `compute_time_ms`: `inf` when throughput ≤ 0, else
`flops / (throughput * 1e12) * 1e3`. -/
def compute_time_ms (flops : ℚ) (hw : HardwareSpec) : WithTop ℚ :=
  let throughput := hw.compute_throughput_tflops
  if throughput ≤ 0 then ⊤ else ((flops / (throughput * 10 ^ 12) * 10 ^ 3 : ℚ) : WithTop ℚ)

/-- `metrics.py` `memory_time_ms`: `inf` when bandwidth ≤ 0, else
`bytes / bandwidth * 1e3`. -/
def memory_time_ms (bytes_moved : ℚ) (hw : HardwareSpec) : WithTop ℚ :=
  let bandwidth := hw.memory_bandwidth_bytes
  if bandwidth ≤ 0 then ⊤ else ((bytes_moved / bandwidth * 10 ^ 3 : ℚ) : WithTop ℚ)

/-- `metrics.py` `interconnect_time_ms`: `0.0` when bandwidth ≤ 0, else
`bytes / bandwidth * 1e3`.  Never infinite. -/
def interconnect_time_ms (bytes_moved : ℚ) (hw : HardwareSpec) : ℚ :=
  let bandwidth := hw.interconnect_bandwidth_bytes
  if bandwidth ≤ 0 then 0 else bytes_moved / bandwidth * 10 ^ 3

/-- `metrics.py` `dominant_latency_ms`: `max(compute_ms, memory_ms / overlap)`. -/
def dominant_latency_ms (compute_ms memory_ms : WithTop ℚ) (hw : HardwareSpec) :
    WithTop ℚ :=
  let overlap := hw.effective_overlap
  let adjusted_memory := divTop memory_ms overlap
  max compute_ms adjusted_memory

/-- `src/core/ops/fused_ops.py` `FusionMetrics`. -/
structure FusionMetrics where
  name : String
  flops : ℚ
  bytes_accessed : ℚ
deriving DecidableEq

/-- `fused_ops.py` `attention_qkv_projections`. -/
def attention_qkv_projections (batch seq d_model qkv_dim : ℤ)
    (dtype_bits : ℤ := 16) : FusionMetrics :=
  let tokens := batch * seq
  let flops_per := matmul_flops tokens qkv_dim d_model
  let flops := 3 * flops_per
  let input_bytes := tensor_bytes [batch, seq, d_model] dtype_bits
  let weight_bytes := tensor_bytes [d_model, qkv_dim] dtype_bits * 3
  let output_bytes := tensor_bytes [batch, seq, qkv_dim] dtype_bits * 3
  ⟨"attention_qkv_proj", flops, input_bytes + weight_bytes + output_bytes⟩

/-- `fused_ops.py` `attention_scores`: Q·Kᵗ matmul plus softmax term. -/
def attention_scores (batch seq num_heads head_dim : ℤ)
    (dtype_bits : ℤ := 16) : FusionMetrics :=
  let flops_per_head := matmul_flops seq seq head_dim
  let flops := flops_per_head * batch * num_heads
  let softmax_flops : ℚ := ((batch * num_heads * seq * seq : ℤ) : ℚ)
  let total_flops := flops + softmax_flops
  let q_bytes := tensor_bytes [batch, num_heads, seq, head_dim] dtype_bits
  let k_bytes := tensor_bytes [batch, num_heads, seq, head_dim] dtype_bits
  let attn_bytes := tensor_bytes [batch, num_heads, seq, seq] dtype_bits
  ⟨"attention_scores", total_flops, q_bytes + k_bytes + attn_bytes⟩

/-- `fused_ops.py` `attention_weighted_sum`. -/
def attention_weighted_sum (batch seq num_heads head_dim : ℤ)
    (dtype_bits : ℤ := 16) : FusionMetrics :=
  let flops_per_head := matmul_flops seq head_dim seq
  let flops := flops_per_head * batch * num_heads
  let attn_bytes := tensor_bytes [batch, num_heads, seq, seq] dtype_bits
  let v_bytes := tensor_bytes [batch, num_heads, seq, head_dim] dtype_bits
  let output_bytes := tensor_bytes [batch, seq, num_heads * head_dim] dtype_bits
  ⟨"attention_weighted_sum", flops, attn_bytes + v_bytes + output_bytes⟩

/-- `fused_ops.py` `attention_output_projection`. -/
def attention_output_projection (batch seq d_model qkv_dim : ℤ)
    (dtype_bits : ℤ := 16) : FusionMetrics :=
  let tokens := batch * seq
  let flops := matmul_flops tokens d_model qkv_dim
  let input_bytes := tensor_bytes [batch, seq, qkv_dim] dtype_bits
  let weight_bytes := tensor_bytes [qkv_dim, d_model] dtype_bits
  let output_bytes := tensor_bytes [batch, seq, d_model] dtype_bits
  ⟨"attention_output_proj", flops, input_bytes + weight_bytes + output_bytes⟩

/-- `fused_ops.py` `ffn_activation`. -/
def ffn_activation (batch seq d_model hidden_dim : ℤ)
    (dtype_bits : ℤ := 16) : FusionMetrics :=
  let tokens := batch * seq
  let flops_first := matmul_flops tokens hidden_dim d_model
  let flops_second := matmul_flops tokens d_model hidden_dim
  let activation_flops : ℚ := ((tokens * hidden_dim : ℤ) : ℚ)
  let total_flops := flops_first + flops_second + activation_flops
  let input_bytes := tensor_bytes [batch, seq, d_model] dtype_bits
  let hidden_bytes := tensor_bytes [batch, seq, hidden_dim] dtype_bits * 2
  let weight_bytes := tensor_bytes [d_model, hidden_dim] dtype_bits +
    tensor_bytes [hidden_dim, d_model] dtype_bits
  ⟨"ffn", total_flops, input_bytes + hidden_bytes + weight_bytes⟩

/-- `fused_ops.py` `moe_expert_forward`. -/
def moe_expert_forward (active_tokens d_model expert_hidden : ℤ)
    (dtype_bits : ℤ := 16) : FusionMetrics :=
  let flops_first := matmul_flops active_tokens expert_hidden d_model
  let flops_second := matmul_flops active_tokens d_model expert_hidden
  let activation_flops : ℚ := ((active_tokens * expert_hidden : ℤ) : ℚ)
  let total_flops := flops_first + flops_second + activation_flops
  let act_bytes := tensor_bytes [active_tokens, d_model] dtype_bits
  let hidden_bytes := tensor_bytes [active_tokens, expert_hidden] dtype_bits
  let weight_bytes := tensor_bytes [d_model, expert_hidden] dtype_bits +
    tensor_bytes [expert_hidden, d_model] dtype_bits
  ⟨"moe_expert", total_flops, act_bytes + hidden_bytes + weight_bytes⟩

/-- `fused_ops.py` `moe_routing`. -/
def moe_routing (batch seq num_experts top_k : ℤ)
    (dtype_bits : ℤ := 16) : FusionMetrics :=
  let tokens := batch * seq
  let flops : ℚ := ((tokens * num_experts : ℤ) : ℚ)
  let select_flops : ℚ := ((tokens * top_k : ℤ) : ℚ)
  let total_flops := flops + select_flops
  let gate_bytes := tensor_bytes [tokens, num_experts] dtype_bits
  ⟨"moe_routing", total_flops, gate_bytes⟩

/-- `fused_ops.py` `communication_all_to_all`: zero FLOPs, pass-through bytes. -/
def communication_all_to_all (bytes_per_device : ℚ) : FusionMetrics :=
  ⟨"all_to_all", 0, bytes_per_device⟩

/-- `fused_ops.py` `communication_all_reduce`: zero FLOPs, pass-through bytes. -/
def communication_all_reduce (bytes_per_device : ℚ) : FusionMetrics :=
  ⟨"all_reduce", 0, bytes_per_device⟩

/-- `src/core/data/specs.py` `RuntimeSpec` (the fields the estimators consume). -/
structure RuntimeSpec where
  batch_size : ℤ
  seq_len : ℤ

/-- `src/core/data/specs.py` `LayerExecution`.  Feature and breakdown dicts are
modelled as association lists (insertion ordered, like Python dicts). -/
structure LayerExecution where
  layer_name : String
  layer_type : String
  flops : ℚ
  bytes_read : ℚ
  bytes_written : ℚ
  compute_time_ms : WithTop ℚ
  memory_time_ms : WithTop ℚ
  dominant_latency_ms : WithTop ℚ
  estimated_execution_time_ms : WithTop ℚ
  features : List (String × ℚ)
  breakdown : List (String × (ℚ × ℚ))

/-- `src/core/module/attention.py` `AttentionConfig`. -/
structure AttentionConfig where
  d_model : ℤ := 768
  num_heads : ℤ := 8
  head_dim : Option ℤ := none
  dtype_bits : ℤ := 16

/-- `AttentionConfig.resolved_head_dim`: the explicit override when present,
else `d_model // max(num_heads, 1)` (Python floor division). -/
def AttentionConfig.resolved_head_dim (cfg : AttentionConfig) : ℤ :=
  match cfg.head_dim with
  | some h => h
  | none => Int.fdiv cfg.d_model (max cfg.num_heads 1)

/-- `AttentionConfig.qkv_dim`: `num_heads * resolved_head_dim`. -/
def AttentionConfig.qkv_dim (cfg : AttentionConfig) : ℤ :=
  cfg.num_heads * cfg.resolved_head_dim

namespace Attention

/-- `Attention._metrics`: the four catalog calls in sequence. -/
def metrics (cfg : AttentionConfig) (batch seq : ℤ) :
    FusionMetrics × FusionMetrics × FusionMetrics × FusionMetrics :=
  let qkv := attention_qkv_projections batch seq cfg.d_model cfg.qkv_dim cfg.dtype_bits
  let scores := attention_scores batch seq cfg.num_heads cfg.resolved_head_dim cfg.dtype_bits
  let weighted := attention_weighted_sum batch seq cfg.num_heads cfg.resolved_head_dim cfg.dtype_bits
  let out_proj := attention_output_projection batch seq cfg.d_model cfg.qkv_dim cfg.dtype_bits
  (qkv, scores, weighted, out_proj)

/-- `Attention.estimate_execution_time`. -/
def estimate_execution_time (cfg : AttentionConfig) (batch seq : ℤ)
    (hw : HardwareSpec) : LayerExecution :=
  let ms := metrics cfg batch seq
  let qkv := ms.1; let scores := ms.2.1; let weighted := ms.2.2.1; let out_proj := ms.2.2.2
  let total_flops := qkv.flops + scores.flops + weighted.flops + out_proj.flops
  let total_bytes := qkv.bytes_accessed + scores.bytes_accessed +
    weighted.bytes_accessed + out_proj.bytes_accessed
  let output_bytes := tensor_bytes [batch, seq, cfg.d_model] cfg.dtype_bits
  let compute_ms := compute_time_ms total_flops hw
  let memory_ms := memory_time_ms (total_bytes + output_bytes) hw
  let latency_ms := dominant_latency_ms compute_ms memory_ms hw
  { layer_name := "attention"
    layer_type := "attention"
    flops := total_flops
    bytes_read := total_bytes
    bytes_written := output_bytes
    compute_time_ms := compute_ms
    memory_time_ms := memory_ms
    dominant_latency_ms := latency_ms
    estimated_execution_time_ms := latency_ms
    features := [("d_model", (cfg.d_model : ℚ)), ("num_heads", (cfg.num_heads : ℚ)),
      ("batch", (batch : ℚ)), ("seq", (seq : ℚ)), ("dtype_bits", (cfg.dtype_bits : ℚ))]
    breakdown := [(qkv.name, (qkv.flops, qkv.bytes_accessed)),
      (scores.name, (scores.flops, scores.bytes_accessed)),
      (weighted.name, (weighted.flops, weighted.bytes_accessed)),
      (out_proj.name, (out_proj.flops, out_proj.bytes_accessed))] }

end Attention

/-- `src/core/module/ffn.py` `FFNConfig`. -/
structure FFNConfig where
  d_model : ℤ := 768
  d_ff : ℤ := 3072
  dtype_bits : ℤ := 16

namespace FFN

/-- `FFN._metrics`: a single `ffn_activation` catalog call. -/
def metrics (cfg : FFNConfig) (batch seq : ℤ) : FusionMetrics :=
  ffn_activation batch seq cfg.d_model cfg.d_ff cfg.dtype_bits

/-- `FFN.estimate_execution_time`. -/
def estimate_execution_time (cfg : FFNConfig) (batch seq : ℤ)
    (hw : HardwareSpec) : LayerExecution :=
  let metric := metrics cfg batch seq
  let total_flops := metric.flops
  let bytes_accessed := metric.bytes_accessed
  let output_bytes := tensor_bytes [batch, seq, cfg.d_model] cfg.dtype_bits
  let compute_ms := compute_time_ms total_flops hw
  let memory_ms := memory_time_ms (bytes_accessed + output_bytes) hw
  let latency_ms := dominant_latency_ms compute_ms memory_ms hw
  { layer_name := "ffn"
    layer_type := "ffn"
    flops := total_flops
    bytes_read := bytes_accessed
    bytes_written := output_bytes
    compute_time_ms := compute_ms
    memory_time_ms := memory_ms
    dominant_latency_ms := latency_ms
    estimated_execution_time_ms := latency_ms
    features := [("d_model", (cfg.d_model : ℚ)), ("d_ff", (cfg.d_ff : ℚ)),
      ("batch", (batch : ℚ)), ("seq", (seq : ℚ)), ("dtype_bits", (cfg.dtype_bits : ℚ))]
    breakdown := [(metric.name, (metric.flops, metric.bytes_accessed))] }

end FFN

/-- `src/core/module/moe.py` `MoEConfig`. -/
structure MoEConfig where
  d_model : ℤ := 768
  expert_hidden : ℤ := 3072
  num_experts : ℤ := 1
  top_k : ℤ := 1
  avg_experts_per_token : ℚ := 1
  num_groups : ℤ := 1
  dtype_bits : ℤ := 16

namespace MoE

/-- `MoE._metrics`: routing + expert forward on
`active_tokens = int(tokens * avg_experts_per_token)` + derived all-to-all on
the active-token byte footprint divided by `num_groups`. -/
def metrics (cfg : MoEConfig) (batch seq : ℤ) :
    FusionMetrics × FusionMetrics × FusionMetrics :=
  let tokens := batch * seq
  let routing := moe_routing batch seq cfg.num_experts cfg.top_k cfg.dtype_bits
  let active_tokens := pyInt ((tokens : ℚ) * cfg.avg_experts_per_token)
  let expert := moe_expert_forward active_tokens cfg.d_model cfg.expert_hidden cfg.dtype_bits
  let bytes_per_device := tensor_bytes [active_tokens, cfg.d_model] cfg.dtype_bits /
    (cfg.num_groups : ℚ)
  let comm := communication_all_to_all bytes_per_device
  (routing, expert, comm)

/-- `MoE.estimate_execution_time`. -/
def estimate_execution_time (cfg : MoEConfig) (batch seq : ℤ)
    (hw : HardwareSpec) : LayerExecution :=
  let ms := metrics cfg batch seq
  let routing := ms.1; let expert := ms.2.1; let comm := ms.2.2
  let total_flops := routing.flops + expert.flops + comm.flops
  let bytes_accessed := routing.bytes_accessed + expert.bytes_accessed + comm.bytes_accessed
  let output_bytes := tensor_bytes [batch, seq, cfg.d_model] cfg.dtype_bits
  let compute_ms := compute_time_ms total_flops hw
  let memory_ms := memory_time_ms (bytes_accessed + output_bytes) hw
  let latency_ms := dominant_latency_ms compute_ms memory_ms hw
  { layer_name := "moe"
    layer_type := "moe"
    flops := total_flops
    bytes_read := bytes_accessed
    bytes_written := output_bytes
    compute_time_ms := compute_ms
    memory_time_ms := memory_ms
    dominant_latency_ms := latency_ms
    estimated_execution_time_ms := latency_ms
    features := [("d_model", (cfg.d_model : ℚ)), ("expert_hidden", (cfg.expert_hidden : ℚ)),
      ("num_experts", (cfg.num_experts : ℚ)), ("top_k", (cfg.top_k : ℚ)),
      ("avg_experts_per_token", cfg.avg_experts_per_token),
      ("batch", (batch : ℚ)), ("seq", (seq : ℚ))]
    breakdown := [(routing.name, (routing.flops, routing.bytes_accessed)),
      (expert.name, (expert.flops, expert.bytes_accessed)),
      (comm.name, (comm.flops, comm.bytes_accessed))] }

end MoE

/-- `src/core/module/communication.py` `CommunicationConfig`. -/
structure CommunicationConfig where
  pattern : String := "all_to_all"
  payload_mb : ℚ := 1

namespace Communication

/-- `Communication.estimate_execution_time`: interconnect time sits in the
compute slot of the roofline; the payload is counted as both read and written. -/
def estimate_execution_time (cfg : CommunicationConfig) (batch seq : ℤ)
    (hw : HardwareSpec) : LayerExecution :=
  let payload_bytes := cfg.payload_mb * 10 ^ 6
  let metric := if cfg.pattern = "all_reduce" then communication_all_reduce payload_bytes
    else communication_all_to_all payload_bytes
  let interconnect_ms := interconnect_time_ms metric.bytes_accessed hw
  let memory_ms := memory_time_ms metric.bytes_accessed hw
  let latency_ms := dominant_latency_ms ((interconnect_ms : ℚ) : WithTop ℚ) memory_ms hw
  { layer_name := "communication"
    layer_type := "communication"
    flops := 0
    bytes_read := metric.bytes_accessed
    bytes_written := metric.bytes_accessed
    compute_time_ms := ((interconnect_ms : ℚ) : WithTop ℚ)
    memory_time_ms := memory_ms
    dominant_latency_ms := latency_ms
    estimated_execution_time_ms := latency_ms
    features := [("pattern", if cfg.pattern = "all_reduce" then 1 else 0),
      ("payload_mb", cfg.payload_mb), ("batch", (batch : ℚ)), ("seq", (seq : ℚ))]
    breakdown := [(metric.name, (metric.flops, metric.bytes_accessed))] }

end Communication

/-- Common header shared by all layer configs (`BaseLayerConfig` metadata). -/
structure BaseFields where
  layer_type : String
  name : String
  layer_id : ℤ

/-- The closed union of the four layer-config variants of `specs.py`
(`BaseLayerConfig` and its three subclasses), each carrying its parsed
sub-configuration.  The base variant stands for a plain attention layer. -/
inductive LayerConfig where
  | attention (base : BaseFields) (attn_config : AttentionConfig)
  | ffn (base : BaseFields) (ffn_config : FFNConfig)
  | moe (base : BaseFields) (moe_config : MoEConfig)
  | communication (base : BaseFields) (comm_config : CommunicationConfig)

/-- The shared header of a layer config. -/
def LayerConfig.base : LayerConfig → BaseFields
  | .attention b _ => b
  | .ffn b _ => b
  | .moe b _ => b
  | .communication b _ => b

/-- Python `dict.setdefault`: insert at the end only when the key is absent. -/
def setdefault (fs : List (String × ℚ)) (k : String) (v : ℚ) : List (String × ℚ) :=
  if (fs.lookup k).isSome then fs else fs ++ [(k, v)]

namespace AnalyticEstimator

/-- The dispatch step of `AnalyticEstimator.estimate_layer`: FFN config → FFN,
MoE config → MoE, Communication config → Communication, base variant → Attention. -/
def moduleExecution (lc : LayerConfig) (batch seq : ℤ) (hw : HardwareSpec) :
    LayerExecution :=
  match lc with
  | .ffn _ c => FFN.estimate_execution_time c batch seq hw
  | .moe _ c => MoE.estimate_execution_time c batch seq hw
  | .communication _ c => Communication.estimate_execution_time c batch seq hw
  | .attention _ c => Attention.estimate_execution_time c batch seq hw

/-- `src/core/estimation/analytic.py` `AnalyticEstimator.estimate_layer`:
dispatches to the module, then overwrites `layer_name`/`layer_type` with the
config's own and setdefaults the `layer_id` / `layer_type` feature keys. -/
def estimate_layer (hw : HardwareSpec) (rt : RuntimeSpec) (lc : LayerConfig) :
    LayerExecution :=
  let execution := moduleExecution lc rt.batch_size rt.seq_len hw
  { execution with
    layer_name := lc.base.name
    layer_type := lc.base.layer_type
    features := setdefault (setdefault execution.features "layer_id"
      (lc.base.layer_id : ℚ)) "layer_type" 0 }

/-- `AnalyticEstimator.estimate_layers`: one result per config, in order. -/
def estimate_layers (hw : HardwareSpec) (rt : RuntimeSpec)
    (lcs : List LayerConfig) : List LayerExecution :=
  lcs.map (estimate_layer hw rt)

end AnalyticEstimator

/-- `src/core/data/specs.py` `SimulationResult`. -/
structure SimulationResult where
  layers : List LayerExecution
  total_flops : ℚ
  total_latency_ms : WithTop ℚ
  peak_memory_bytes : ℚ
  bottleneck_layer : Option String

/-- Python `max(executions, key=lambda e: e.dominant_latency_ms)`: the first
element attaining the maximum (a later element replaces the accumulator only
when strictly greater); `none` on the empty list. -/
def maxByLatency : List LayerExecution → Option LayerExecution
  | [] => none
  | x :: xs => some (xs.foldl
      (fun acc y => if acc.dominant_latency_ms < y.dominant_latency_ms then y else acc) x)

/-- The `max(...)` over per-layer `bytes_read + bytes_written` in
`run_simulation`; `⊥` models the `ValueError` Python raises on an empty
sequence. -/
def peakMemory (executions : List LayerExecution) : WithBot ℚ :=
  (executions.map (fun e => e.bytes_read + e.bytes_written)).maximum

/-- `src/entrypoints/simulator.py` `run_simulation` aggregation over a list of
layer executions; `none` models the `ValueError` raised by `max` on an empty
list. -/
def run_simulation (executions : List LayerExecution) : Option SimulationResult :=
  let total_flops := (executions.map (fun e => e.flops)).sum
  let total_latency := (executions.map (fun e => e.dominant_latency_ms)).sum
  match peakMemory executions with
  | ⊥ => none
  | (peak : ℚ) =>
    some { layers := executions
           total_flops := total_flops
           total_latency_ms := total_latency
           peak_memory_bytes := peak
           bottleneck_layer := (maxByLatency executions).map (fun e => e.layer_name) }

/-- A hardware profile with all rates zero, used to exhibit degenerate cases. -/
def zeroHW : HardwareSpec :=
  { name := "zero", peak_tflops := 0, memory_bandwidth_gbps := 0, hbm_gb := 0,
    interconnect_gbps := 0 }

/-- A small concrete MoE configuration used to instantiate the MoE theorem. -/
def mcfg0 : MoEConfig :=
  { d_model := 4, expert_hidden := 6, num_experts := 8, top_k := 2,
    avg_experts_per_token := 2, num_groups := 2, dtype_bits := 16 }

/-- A concrete FFN layer configuration used to instantiate the dispatcher theorem. -/
def lc0 : LayerConfig := .ffn ⟨"ffn", "my_ffn", 7⟩ {}

/-- A concrete runtime used to instantiate the dispatcher theorem. -/
def rt0 : RuntimeSpec := ⟨2, 3⟩

/-! ### Theorems -/

/-- C1: for all compute and memory times and every hardware spec,
`dominant_latency_ms` is exactly `max(compute_ms, memory_ms / effective_overlap)`,
and `effective_overlap` is floor-clamped to `1e-3`, hence strictly positive. -/
theorem C1_dominant_latency_exact (hw : HardwareSpec) (c m : ℚ) :
    (1 / 1000 : ℚ) ≤ hw.effective_overlap ∧ 0 < hw.effective_overlap ∧
    dominant_latency_ms ((c : ℚ) : WithTop ℚ) ((m : ℚ) : WithTop ℚ) hw =
      max ((c : ℚ) : WithTop ℚ) (((m / hw.effective_overlap : ℚ)) : WithTop ℚ) := by
  refine ⟨le_max_right _ _, lt_of_lt_of_le (by norm_num) (le_max_right _ _), rfl⟩

/-- C2: non-positive peak compute throughput makes `compute_time_ms` infinite,
non-positive memory bandwidth makes `memory_time_ms` infinite, but non-positive
interconnect bandwidth makes `interconnect_time_ms` exactly zero. -/
theorem C2_degenerate_hardware (hw : HardwareSpec) (flops b₁ b₂ : ℚ) :
    (hw.peak_tflops ≤ 0 → compute_time_ms flops hw = ⊤) ∧
    (hw.memory_bandwidth_gbps ≤ 0 → memory_time_ms b₁ hw = ⊤) ∧
    (hw.interconnect_gbps ≤ 0 → interconnect_time_ms b₂ hw = 0) := by
  refine ⟨fun h => ?_, fun h => ?_, fun h => ?_⟩
  · simp [compute_time_ms, HardwareSpec.compute_throughput_tflops, max_eq_right h]
  · simp [memory_time_ms, HardwareSpec.memory_bandwidth_bytes, max_eq_right h]
  · simp [interconnect_time_ms, HardwareSpec.interconnect_bandwidth_bytes, max_eq_right h]

/-- C2 witness: the degenerate conclusions hold at the all-zero hardware spec. -/
theorem C2_degenerate_hardware_witness :
    compute_time_ms 5 zeroHW = ⊤ ∧ memory_time_ms 7 zeroHW = ⊤ ∧
    interconnect_time_ms 9 zeroHW = 0 := by
  have h := C2_degenerate_hardware zeroHW 5 7 9
  exact ⟨h.1 (by norm_num [zeroHW]), h.2.1 (by norm_num [zeroHW]),
    h.2.2 (by norm_num [zeroHW])⟩

/-- C6: for all non-negative inputs, `attention_scores` returns FLOPs equal to
`2*seq*seq*head_dim*batch*num_heads + batch*num_heads*seq*seq` and bytes equal to
the Q tensor plus the K tensor plus the attention-weight tensor, each sized by
`tensor_bytes` at the given dtype width. -/
theorem C6_attention_scores_formula (batch seq num_heads head_dim : ℕ) (bits : ℤ) :
    (attention_scores batch seq num_heads head_dim bits).flops =
      2 * (seq : ℚ) * seq * head_dim * batch * num_heads +
        (batch : ℚ) * num_heads * seq * seq ∧
    (attention_scores batch seq num_heads head_dim bits).bytes_accessed =
      tensor_bytes [(batch : ℤ), num_heads, seq, head_dim] bits +
        tensor_bytes [(batch : ℤ), num_heads, seq, head_dim] bits +
        tensor_bytes [(batch : ℤ), num_heads, seq, seq] bits := by
  constructor
  · show matmul_flops seq seq head_dim * (batch : ℤ) * (num_heads : ℤ) +
      (((batch : ℤ) * (num_heads : ℤ) * (seq : ℤ) * (seq : ℤ) : ℤ) : ℚ) = _
    unfold matmul_flops
    push_cast
    ring
  · rfl

/-- C8: every LayerExecution produced by the four estimator modules has
`estimated_execution_time_ms` equal to `dominant_latency_ms` at construction. -/
theorem C8_estimated_equals_dominant (acfg : AttentionConfig) (fcfg : FFNConfig)
    (mcfg : MoEConfig) (ccfg : CommunicationConfig) (batch seq : ℤ)
    (hw : HardwareSpec) :
    (Attention.estimate_execution_time acfg batch seq hw).estimated_execution_time_ms =
      (Attention.estimate_execution_time acfg batch seq hw).dominant_latency_ms ∧
    (FFN.estimate_execution_time fcfg batch seq hw).estimated_execution_time_ms =
      (FFN.estimate_execution_time fcfg batch seq hw).dominant_latency_ms ∧
    (MoE.estimate_execution_time mcfg batch seq hw).estimated_execution_time_ms =
      (MoE.estimate_execution_time mcfg batch seq hw).dominant_latency_ms ∧
    (Communication.estimate_execution_time ccfg batch seq hw).estimated_execution_time_ms =
      (Communication.estimate_execution_time ccfg batch seq hw).dominant_latency_ms :=
  ⟨rfl, rfl, rfl, rfl⟩

/-- C9: a Communication estimate stores the interconnect transfer time of the
`payload_mb*1e6`-byte payload in the `compute_time_ms` slot (zero when the
interconnect bandwidth is non-positive, else `payload/bandwidth*1e3`), has zero
FLOPs, counts the payload as both read and written, and combines the
interconnect and memory times through `dominant_latency_ms`. -/
theorem C9_communication_fields (cfg : CommunicationConfig) (batch seq : ℤ)
    (hw : HardwareSpec) :
    (Communication.estimate_execution_time cfg batch seq hw).compute_time_ms =
      ((interconnect_time_ms (cfg.payload_mb * 10 ^ 6) hw : ℚ) : WithTop ℚ) ∧
    interconnect_time_ms (cfg.payload_mb * 10 ^ 6) hw =
      (if hw.interconnect_bandwidth_bytes ≤ 0 then 0
        else cfg.payload_mb * 10 ^ 6 / hw.interconnect_bandwidth_bytes * 10 ^ 3) ∧
    (Communication.estimate_execution_time cfg batch seq hw).flops = 0 ∧
    (Communication.estimate_execution_time cfg batch seq hw).bytes_read =
      cfg.payload_mb * 10 ^ 6 ∧
    (Communication.estimate_execution_time cfg batch seq hw).bytes_written =
      cfg.payload_mb * 10 ^ 6 ∧
    (Communication.estimate_execution_time cfg batch seq hw).dominant_latency_ms =
      dominant_latency_ms
        ((interconnect_time_ms (cfg.payload_mb * 10 ^ 6) hw : ℚ) : WithTop ℚ)
        (memory_time_ms (cfg.payload_mb * 10 ^ 6) hw) hw := by
  unfold Communication.estimate_execution_time
  by_cases hp : cfg.pattern = "all_reduce" <;>
    simp [hp, communication_all_reduce, communication_all_to_all, interconnect_time_ms]

/-- C10: with `head_dim` unset, `resolved_head_dim` is `d_model` floor-divided
by `max(num_heads, 1)`: it is `d_model // num_heads` whenever `num_heads ≥ 1`
and `d_model` when `num_heads < 1` (in particular no division by zero at
`num_heads = 0`), and `qkv_dim` is always `num_heads * resolved_head_dim`. -/
theorem C10_resolved_head_dim (d n bits : ℤ) :
    ({ d_model := d, num_heads := n, head_dim := none, dtype_bits := bits } :
        AttentionConfig).resolved_head_dim = Int.fdiv d (max n 1) ∧
    ({ d_model := d, num_heads := n, head_dim := none, dtype_bits := bits } :
        AttentionConfig).resolved_head_dim =
      (if 1 ≤ n then Int.fdiv d n else d) ∧
    ({ d_model := d, num_heads := n, head_dim := none, dtype_bits := bits } :
        AttentionConfig).qkv_dim =
      n * Int.fdiv d (max n 1) := by
  refine ⟨rfl, ?_, rfl⟩
  show Int.fdiv d (max n 1) = _
  by_cases h : 1 ≤ n
  · rw [if_pos h, max_eq_left h]
  · rw [if_neg h, max_eq_right (le_of_not_le h), Int.fdiv_one]

/-- C3: for every MoE configuration with non-negative average experts per token
and non-negative batch and seq, the MoE metrics are exactly the three catalog
calls (routing; expert forward on `active_tokens = ⌊batch*seq*avg⌋`; all-to-all
on the active-token byte footprint divided by `num_groups`), and the estimate's
FLOPs field is the sum of the three formulas' FLOPs. -/
theorem C3_moe_metrics (cfg : MoEConfig) (batch seq : ℕ) (hw : HardwareSpec)
    (havg : 0 ≤ cfg.avg_experts_per_token) :
    MoE.metrics cfg (batch : ℤ) (seq : ℤ) =
      (moe_routing (batch : ℤ) (seq : ℤ) cfg.num_experts cfg.top_k cfg.dtype_bits,
       moe_expert_forward ⌊(((batch : ℤ) * (seq : ℤ) : ℤ) : ℚ) * cfg.avg_experts_per_token⌋
         cfg.d_model cfg.expert_hidden cfg.dtype_bits,
       communication_all_to_all
         (tensor_bytes [⌊(((batch : ℤ) * (seq : ℤ) : ℤ) : ℚ) * cfg.avg_experts_per_token⌋,
            cfg.d_model] cfg.dtype_bits / (cfg.num_groups : ℚ))) ∧
    (MoE.estimate_execution_time cfg (batch : ℤ) (seq : ℤ) hw).flops =
      ((((batch : ℤ) * (seq : ℤ)) * cfg.num_experts +
          ((batch : ℤ) * (seq : ℤ)) * cfg.top_k : ℤ) : ℚ) +
        ((2 * ⌊(((batch : ℤ) * (seq : ℤ) : ℤ) : ℚ) * cfg.avg_experts_per_token⌋ *
            cfg.expert_hidden * cfg.d_model +
          2 * ⌊(((batch : ℤ) * (seq : ℤ) : ℤ) : ℚ) * cfg.avg_experts_per_token⌋ *
            cfg.d_model * cfg.expert_hidden +
          ⌊(((batch : ℤ) * (seq : ℤ) : ℤ) : ℚ) * cfg.avg_experts_per_token⌋ *
            cfg.expert_hidden : ℤ) : ℚ) + 0 := by
  have htok : (0 : ℚ) ≤ (((batch : ℤ) * (seq : ℤ) : ℤ) : ℚ) * cfg.avg_experts_per_token := by
    apply mul_nonneg _ havg
    push_cast
    positivity
  have hpy : pyInt ((((batch : ℤ) * (seq : ℤ) : ℤ) : ℚ) * cfg.avg_experts_per_token) =
      ⌊(((batch : ℤ) * (seq : ℤ) : ℤ) : ℚ) * cfg.avg_experts_per_token⌋ := if_pos htok
  constructor
  · unfold MoE.metrics
    dsimp only
    rw [hpy]
  · unfold MoE.estimate_execution_time MoE.metrics
    dsimp only
    rw [hpy]
    unfold moe_routing moe_expert_forward communication_all_to_all matmul_flops
    dsimp only
    push_cast
    ring

/-- C3 witness: at the concrete configuration `mcfg0` with batch 2, seq 3 the
FLOPs field evaluates to 1284 = (6*8 + 6*2) + (576 + 576 + 72) + 0. -/
theorem C3_moe_metrics_witness :
    (MoE.estimate_execution_time mcfg0 ((2 : ℕ) : ℤ) ((3 : ℕ) : ℤ) zeroHW).flops = 1284 := by
  have h := C3_moe_metrics mcfg0 2 3 zeroHW (by norm_num [mcfg0])
  rw [h.2]
  norm_num [mcfg0]

/-- Looking a key up in an appended association list finds the left binding
when one exists. -/
theorem lookup_append_left {fs : List (String × ℚ)} (gs : List (String × ℚ))
    {k : String} {v : ℚ} (h : fs.lookup k = some v) :
    (fs ++ gs).lookup k = some v := by
  induction fs with
  | nil => simp [List.lookup] at h
  | cons p ps ih =>
    rcases p with ⟨a, b⟩
    rw [List.cons_append]
    simp only [List.lookup] at h ⊢
    cases hk : (k == a) with
    | true => rw [hk] at h; exact h
    | false => rw [hk] at h; exact ih h

/-- Looking a key up in an appended association list falls through to the right
part when the left part lacks the key. -/
theorem lookup_append_right {fs : List (String × ℚ)} (gs : List (String × ℚ))
    {k : String} (h : fs.lookup k = none) :
    (fs ++ gs).lookup k = gs.lookup k := by
  induction fs with
  | nil => simp
  | cons p ps ih =>
    rcases p with ⟨a, b⟩
    rw [List.cons_append]
    simp only [List.lookup] at h ⊢
    cases hk : (k == a) with
    | true => rw [hk] at h; exact absurd h (by simp)
    | false => rw [hk] at h; exact ih h

/-- `setdefault` never changes an existing binding. -/
theorem lookup_setdefault_of_some (fs : List (String × ℚ)) (k' : String) (v' : ℚ)
    {k : String} {v : ℚ} (h : fs.lookup k = some v) :
    (setdefault fs k' v').lookup k = some v := by
  unfold setdefault
  split
  · exact h
  · exact lookup_append_left _ h

/-- After `setdefault fs k v` the key `k` is present. -/
theorem lookup_setdefault_isSome (fs : List (String × ℚ)) (k : String) (v : ℚ) :
    ((setdefault fs k v).lookup k).isSome := by
  unfold setdefault
  split
  · assumption
  · rename_i hnone
    cases h : fs.lookup k with
    | some w => rw [lookup_append_left _ h]; rfl
    | none =>
      rw [lookup_append_right _ h]
      simp [List.lookup]

/-- C5: aggregating zero layers fails fast: the peak-memory maximum of an empty
list is the bottom sentinel (the Python `max` raises), bottleneck selection
over zero layers is `none` rather than a crash, and `run_simulation` of the
empty list yields no result. -/
theorem C5_empty_aggregation :
    peakMemory [] = ⊥ ∧ maxByLatency [] = none ∧ run_simulation [] = none :=
  ⟨rfl, rfl, rfl⟩

/-- An already-present key survives `setdefault` for any key. -/
theorem lookup_setdefault_isSome_of_isSome (fs : List (String × ℚ)) (k' : String)
    (v' : ℚ) (k : String) (h : (fs.lookup k).isSome) :
    ((setdefault fs k' v').lookup k).isSome := by
  cases hv : fs.lookup k with
  | none => rw [hv] at h; simp at h
  | some w => rw [lookup_setdefault_of_some _ _ _ hv]; rfl

/-- C7: `estimate_layer` overwrites only `layer_name`/`layer_type` with the
config's own, setdefaults the `layer_id`/`layer_type` feature keys without
overwriting existing values, leaves every other field exactly as the module
returned it, and dispatches FFN/MoE/Communication/Attention configs to the
matching estimator module. -/
theorem C7_dispatcher_frame (lc : LayerConfig) (hw : HardwareSpec) (rt : RuntimeSpec)
    (b : BaseFields) (fcfg : FFNConfig) (mcfg : MoEConfig)
    (ccfg : CommunicationConfig) (acfg : AttentionConfig) :
    let e := AnalyticEstimator.moduleExecution lc rt.batch_size rt.seq_len hw
    let r := AnalyticEstimator.estimate_layer hw rt lc
    r.layer_name = lc.base.name ∧
    r.layer_type = lc.base.layer_type ∧
    r.flops = e.flops ∧
    r.bytes_read = e.bytes_read ∧
    r.bytes_written = e.bytes_written ∧
    r.compute_time_ms = e.compute_time_ms ∧
    r.memory_time_ms = e.memory_time_ms ∧
    r.dominant_latency_ms = e.dominant_latency_ms ∧
    r.estimated_execution_time_ms = e.estimated_execution_time_ms ∧
    r.breakdown = e.breakdown ∧
    r.features =
      setdefault (setdefault e.features "layer_id" ((lc.base.layer_id : ℤ) : ℚ))
        "layer_type" 0 ∧
    (∀ k v, e.features.lookup k = some v → r.features.lookup k = some v) ∧
    ((r.features.lookup "layer_id").isSome ∧ (r.features.lookup "layer_type").isSome) ∧
    AnalyticEstimator.moduleExecution (.ffn b fcfg) rt.batch_size rt.seq_len hw =
      FFN.estimate_execution_time fcfg rt.batch_size rt.seq_len hw ∧
    AnalyticEstimator.moduleExecution (.moe b mcfg) rt.batch_size rt.seq_len hw =
      MoE.estimate_execution_time mcfg rt.batch_size rt.seq_len hw ∧
    AnalyticEstimator.moduleExecution (.communication b ccfg) rt.batch_size rt.seq_len hw =
      Communication.estimate_execution_time ccfg rt.batch_size rt.seq_len hw ∧
    AnalyticEstimator.moduleExecution (.attention b acfg) rt.batch_size rt.seq_len hw =
      Attention.estimate_execution_time acfg rt.batch_size rt.seq_len hw := by
  intro e r
  refine ⟨rfl, rfl, rfl, rfl, rfl, rfl, rfl, rfl, rfl, rfl, rfl, ?_, ⟨?_, ?_⟩,
    rfl, rfl, rfl, rfl⟩
  · intro k v h
    exact lookup_setdefault_of_some _ _ _ (lookup_setdefault_of_some _ _ _ h)
  · exact lookup_setdefault_isSome_of_isSome _ _ _ _
      (lookup_setdefault_isSome e.features "layer_id" ((lc.base.layer_id : ℤ) : ℚ))
  · exact lookup_setdefault_isSome _ _ _

/-- C7 witness: at a concrete FFN layer config named `my_ffn`, the dispatcher's
result carries the config's name, preserves the estimator-set `d_model`
feature binding, and has the `layer_id` default key present. -/
theorem C7_dispatcher_frame_witness :
    (AnalyticEstimator.estimate_layer zeroHW rt0 lc0).layer_name = "my_ffn" ∧
    (AnalyticEstimator.estimate_layer zeroHW rt0 lc0).features.lookup "d_model" =
      some 768 ∧
    ((AnalyticEstimator.estimate_layer zeroHW rt0 lc0).features.lookup "layer_id").isSome := by
  have h := C7_dispatcher_frame lc0 zeroHW rt0 ⟨"a", "b", 0⟩ {} {} {} {}
  simp only at h
  obtain ⟨hname, -, -, -, -, -, -, -, -, -, -, hpres, ⟨hid, -⟩, -⟩ := h
  exact ⟨hname, hpres "d_model" 768 (by decide), hid⟩

/-- The Python-style first-arg-max fold over layer latencies picks an element
that splits the list as `l₁ ++ picked :: l₂` with every element's latency at
most the picked one and every element before it strictly below it. -/
theorem maxByLatency_foldl_spec (xs : List LayerExecution) : ∀ acc : LayerExecution,
    ∃ l₁ l₂ b, acc :: xs = l₁ ++ b :: l₂ ∧
      xs.foldl (fun acc y =>
        if acc.dominant_latency_ms < y.dominant_latency_ms then y else acc) acc = b ∧
      (∀ z ∈ acc :: xs, z.dominant_latency_ms ≤ b.dominant_latency_ms) ∧
      (∀ z ∈ l₁, z.dominant_latency_ms < b.dominant_latency_ms) := by
  induction xs with
  | nil =>
    intro acc
    exact ⟨[], [], acc, rfl, rfl, by simp, by simp⟩
  | cons y ys ih =>
    intro acc
    rw [List.foldl_cons]
    by_cases h : acc.dominant_latency_ms < y.dominant_latency_ms
    · obtain ⟨l₁, l₂, b, hd, hf, hub, hst⟩ := ih y
      refine ⟨acc :: l₁, l₂, b, ?_, ?_, ?_, ?_⟩
      · rw [List.cons_append, ← hd]
      · rw [if_pos h]; exact hf
      · intro z hz
        rcases List.mem_cons.mp hz with rfl | hz'
        · exact le_trans (le_of_lt h) (hub y (List.mem_cons_self _ _))
        · exact hub z hz'
      · intro z hz
        rcases List.mem_cons.mp hz with rfl | hz'
        · exact lt_of_lt_of_le h (hub y (List.mem_cons_self _ _))
        · exact hst z hz'
    · obtain ⟨l₁, l₂, b, hd, hf, hub, hst⟩ := ih acc
      rw [if_neg h]
      cases l₁ with
      | nil =>
        rw [List.nil_append] at hd
        injection hd with hb hl₂
        subst hb
        refine ⟨[], y :: ys, acc, rfl, hf, ?_, by simp⟩
        intro z hz
        rcases List.mem_cons.mp hz with rfl | hz'
        · exact le_refl _
        rcases List.mem_cons.mp hz' with rfl | hz''
        · exact le_of_not_lt h
        · exact hub z (List.mem_cons_of_mem _ hz'')
      | cons w l₁' =>
        rw [List.cons_append] at hd
        injection hd with hw hys
        subst hw
        refine ⟨acc :: y :: l₁', l₂, b, ?_, hf, ?_, ?_⟩
        · rw [List.cons_append, List.cons_append, ← hys]
        · intro z hz
          rcases List.mem_cons.mp hz with rfl | hz'
          · exact hub z (List.mem_cons_self _ _)
          rcases List.mem_cons.mp hz' with rfl | hz''
          · exact le_trans (le_of_not_lt h) (hub acc (List.mem_cons_self _ _))
          · exact hub z (List.mem_cons_of_mem _ hz'')
        · intro z hz
          rcases List.mem_cons.mp hz with rfl | hz'
          · exact hst z (List.mem_cons_self _ _)
          rcases List.mem_cons.mp hz' with rfl | hz''
          · exact lt_of_le_of_lt (le_of_not_lt h) (hst acc (List.mem_cons_self _ _))
          · exact hst z (List.mem_cons_of_mem _ hz'')

/-- C4: on a non-empty list, aggregation returns a result whose total FLOPs is
the sum of per-layer FLOPs, total latency the sum of per-layer dominant
latencies, peak memory an attained upper bound of per-layer read+write sums,
and whose bottleneck layer is the name of the first layer attaining the
maximal dominant latency (every layer is ≤ it, every earlier layer < it). -/
theorem C4_aggregation (x : LayerExecution) (xs : List LayerExecution) :
    ∃ r, run_simulation (x :: xs) = some r ∧
      r.total_flops = ((x :: xs).map (fun e => e.flops)).sum ∧
      r.total_latency_ms = ((x :: xs).map (fun e => e.dominant_latency_ms)).sum ∧
      r.peak_memory_bytes ∈ (x :: xs).map (fun e => e.bytes_read + e.bytes_written) ∧
      (∀ z ∈ x :: xs, z.bytes_read + z.bytes_written ≤ r.peak_memory_bytes) ∧
      ∃ l₁ l₂ b, x :: xs = l₁ ++ b :: l₂ ∧
        r.bottleneck_layer = some b.layer_name ∧
        (∀ z ∈ x :: xs, z.dominant_latency_ms ≤ b.dominant_latency_ms) ∧
        (∀ z ∈ l₁, z.dominant_latency_ms < b.dominant_latency_ms) := by
  obtain ⟨peak, hpeak⟩ : ∃ p : ℚ, peakMemory (x :: xs) = (p : WithBot ℚ) := by
    cases hM : peakMemory (x :: xs) with
    | bot =>
      exact absurd (List.maximum_eq_bot.mp hM) (by simp)
    | coe p => exact ⟨p, rfl⟩
  have hprops := List.maximum_eq_coe_iff.mp hpeak
  obtain ⟨l₁, l₂, b, hd, hf, hub, hst⟩ := maxByLatency_foldl_spec xs x
  refine ⟨{ layers := x :: xs,
            total_flops := ((x :: xs).map (fun e => e.flops)).sum,
            total_latency_ms := ((x :: xs).map (fun e => e.dominant_latency_ms)).sum,
            peak_memory_bytes := peak,
            bottleneck_layer := (maxByLatency (x :: xs)).map (fun e => e.layer_name) },
    ?_, rfl, rfl, ?_, ?_, l₁, l₂, b, hd, ?_, hub, hst⟩
  · unfold run_simulation
    rw [show peakMemory (x :: xs) = ((peak : ℚ) : WithBot ℚ) from hpeak]
  · exact hprops.1
  · intro z hz
    exact hprops.2 _ (List.mem_map_of_mem _ hz)
  · show (maxByLatency (x :: xs)).map (fun e => e.layer_name) = some b.layer_name
    unfold maxByLatency
    dsimp only
    rw [hf]
    rfl

end LLMSim
